import Mathlib

/-!
Verification of the Dyon/dynamo interpreter core (PistonDevelopers/dynamo).

Shallow embedding of the runtime value universe, the type algebra
(`src/ty.rs`), the `?`/try machinery, the loop accumulators
(`src/runtime/for_n.rs`), the value writer (`src/write.rs`), the object and
array literal evaluators, the comparison evaluator, and the `number`
constant-substitution AST transform (`src/ast/replace.rs`).

Machine floats (`f64`/`f32`) are modelled by `Fl`: either NaN or an exact
rational.  The claims checked here depend only on NaN propagation, ordering
and equality against concrete small values, never on rounding, so this model
is adequate and is stated explicitly wherever a float enters a theorem.
-/

set_option maxHeartbeats 1000000

namespace Dynamo

/-- Model of an `f64`/`f32` machine float: NaN, or an exact rational value.
(Infinities and rounding never matter for the properties below.) -/
inductive Fl where
  | nan : Fl
  | num (q : ℚ) : Fl
  deriving DecidableEq, Repr

namespace Fl

/-- IEEE `<`: any comparison with NaN is false. -/
def lt : Fl → Fl → Bool
  | num a, num b => decide (a < b)
  | _, _ => false

/-- IEEE `<=`: any comparison with NaN is false. -/
def le : Fl → Fl → Bool
  | num a, num b => decide (a ≤ b)
  | _, _ => false

/-- IEEE `>`. -/
def gt : Fl → Fl → Bool
  | num a, num b => decide (a > b)
  | _, _ => false

/-- IEEE `>=`. -/
def ge : Fl → Fl → Bool
  | num a, num b => decide (a ≥ b)
  | _, _ => false

/-- IEEE `==`: NaN is equal to nothing, not even itself. -/
def eqb : Fl → Fl → Bool
  | num a, num b => decide (a = b)
  | _, _ => false

/-- IEEE `!=` is the negation of IEEE `==`. -/
def neb (a b : Fl) : Bool := !(eqb a b)

/-- Addition; NaN propagates. -/
def add : Fl → Fl → Fl
  | num a, num b => num (a + b)
  | _, _ => nan

/-- Multiplication; NaN propagates. -/
def mul : Fl → Fl → Fl
  | num a, num b => num (a * b)
  | _, _ => nan

/-- `f64::is_nan`. -/
def isNan : Fl → Bool
  | nan => true
  | num _ => false

end Fl

mutual

/-- The runtime value universe `Variable` (spec §3.1; the enum itself lives in
`lib.rs` outside the excerpted sources, but every variant is pinned down by its
uses in `src/runtime/mod.rs`, `src/runtime/for_n.rs` and `src/write.rs`).
Shared `Arc`/`Box` wrappers are dropped; the `HashMap` of `Object` is an
association list; opaque host values (`Thread`, `In`, `Closure`,
`RustObject`) are numeric tokens since no claim inspects them. -/
inductive Variable where
  /-- `Variable::Void` sentinel. -/
  | void : Variable
  /-- `Variable::Return`: slot reserved for a pending return value. -/
  | returnV : Variable
  /-- `Variable::Bool(bool, Option<Arc<Vec<Variable>>>)`. -/
  | bool (b : Bool) (sec : Option (List Variable)) : Variable
  /-- `Variable::F64(f64, Option<Arc<Vec<Variable>>>)`. -/
  | f64 (v : Fl) (sec : Option (List Variable)) : Variable
  /-- `Variable::Vec4([f32; 4])`. -/
  | vec4 (a b c d : Fl) : Variable
  /-- `Variable::Mat4(Box<[[f32; 4]; 4]>)`. -/
  | mat4 (m : List (List Fl)) : Variable
  /-- `Variable::Text(Arc<String>)`. -/
  | text (s : String) : Variable
  /-- `Variable::Array(Arc<Vec<Variable>>)`. -/
  | array (items : List Variable) : Variable
  /-- `Variable::Object(Arc<HashMap<Arc<String>, Variable>>)`. -/
  | object (entries : List (String × Variable)) : Variable
  /-- `Variable::Link(Box<Link>)`; the rope of primitive values is flattened
  to the list of its items. -/
  | link (items : List Variable) : Variable
  /-- `Variable::Option(Option<Box<Variable>>)`. -/
  | option (o : Option Variable) : Variable
  /-- `Variable::Result(Result<Box<Variable>, Box<Error>>)`. -/
  | result (r : Except ErrorV Variable) : Variable
  /-- `Variable::Thread(...)` join handle, opaque. -/
  | thread (id : Nat) : Variable
  /-- `Variable::In(...)` receiver endpoint, opaque. -/
  | inV (id : Nat) : Variable
  /-- `Variable::Closure(Arc<ast::Closure>, Box<ClosureEnvironment>)`, opaque. -/
  | closure (astId : Nat) (relative : Nat) : Variable
  /-- `Variable::RustObject(...)`, opaque. -/
  | rustObject (id : Nat) : Variable
  /-- `Variable::Ref(usize)`: indirection into the evaluation stack. -/
  | ref (ind : Nat) : Variable
  /-- `Variable::UnsafeRef(...)`: transient l-value handle, modelled by the
  stack index it points at. -/
  | unsafeRef (ind : Nat) : Variable

/-- The runtime `Error { message: Variable, trace: Vec<String> }`. -/
inductive ErrorV where
  | mk (message : Variable) (trace : List String) : ErrorV

end

namespace ErrorV

def message : ErrorV → Variable | mk m _ => m

def trace : ErrorV → List String | mk _ t => t

end ErrorV

namespace Variable

/-- The `Variable::f64(v)` helper constructor: an `F64` with no secret. -/
def f64c (v : Fl) : Variable := .f64 v none

/-- The `Variable::bool(b)` helper constructor: a `Bool` with no secret. -/
def boolc (b : Bool) : Variable := .bool b none

end Variable

/-- The Dyon `Type` enum (src/ty.rs).  `Closure(Box<Dfn>)` is flattened to
the two `Dfn` fields that `goes_with` inspects (`tys` and `ret`); the
threading feature gate is taken as enabled, as the spec does. -/
inductive Ty where
  | unreachable : Ty
  | void : Ty
  | any : Ty
  | bool : Ty
  | f64 : Ty
  | vec4 : Ty
  | mat4 : Ty
  | str : Ty
  | link : Ty
  | array (t : Ty) : Ty
  | object : Ty
  | option (t : Ty) : Ty
  | result (t : Ty) : Ty
  | secret (t : Ty) : Ty
  | thread (t : Ty) : Ty
  | inT (t : Ty) : Ty
  | adhoc (name : String) (t : Ty) : Ty
  | closure (tys : List Ty) (ret : Ty) : Ty

namespace Ty

def isAdHoc : Ty → Bool
  | adhoc _ _ => true
  | _ => false

def isSecret : Ty → Bool
  | secret _ => true
  | _ => false

mutual

/-- Structural equality on `Type` (the derived `PartialEq` of the source). -/
def eqb : Ty → Ty → Bool
  | unreachable, unreachable => true
  | void, void => true
  | any, any => true
  | bool, bool => true
  | f64, f64 => true
  | vec4, vec4 => true
  | mat4, mat4 => true
  | str, str => true
  | link, link => true
  | array a, array b => eqb a b
  | object, object => true
  | option a, option b => eqb a b
  | result a, result b => eqb a b
  | secret a, secret b => eqb a b
  | thread a, thread b => eqb a b
  | inT a, inT b => eqb a b
  | adhoc n a, adhoc n2 b => decide (n = n2) && eqb a b
  | closure tys r, closure tys2 r2 => eqbList tys tys2 && eqb r r2
  | _, _ => false

def eqbList : List Ty → List Ty → Bool
  | [], [] => true
  | a :: as_, b :: bs => eqb a b && eqbList as_ bs
  | _, _ => false

end

mutual

/-- `Type::goes_with` (src/ty.rs), the directional compatibility check
`required.goes_with(actual)`.  "Invert the order because of complex ad-hoc
logic": when only `other` is ad-hoc, the arguments are swapped; the rest of
the body is `goes_with_main`. -/
def goes_with (s o : Ty) : Bool :=
  if o.isAdHoc && !s.isAdHoc then goes_with o s
  else goes_with_main s o
termination_by
  3 * (sizeOf s + sizeOf o) + (if o.isAdHoc && !s.isAdHoc then 1 else 0) + 1
decreasing_by
  · simp_wf
    cases s <;> simp_all [Ty.isAdHoc] <;> omega
  · simp_wf
    repeat' split
    all_goals omega

/-- The body of `goes_with` after the ad-hoc inversion: the `Secret`
pre-check on `other`, then the ordered `match` on `self` (in particular the
`_ if *other == Unreachable => true` arm sits above the `Any`/`Void`/
container arms, exactly as in the source). -/
def goes_with_main : Ty → Ty → Bool
  -- the `Secret` pre-check on `other`
  | secret sty, secret oty => goes_with sty oty
  | s, secret oty => goes_with s oty
  -- the main match on `self`
  | unreachable, _ => true
  | _, unreachable => true
  | any, o => !(eqb o void)
  | void, o => eqb o void
  | array a, array b => goes_with a b
  | array _, o => eqb o any
  | object, object => true
  | object, o => eqb o any
  | option a, option b => goes_with a b
  | option _, o => eqb o any
  | result a, result b => goes_with a b
  | result _, o => eqb o any
  | thread a, thread b => goes_with a b
  | thread _, o => eqb o any
  | inT a, inT b => goes_with a b
  | inT _, o => eqb o any
  | closure tys ret, closure tys2 ret2 =>
    decide (tys.length = tys2.length) && goes_with_zip tys tys2 &&
      goes_with ret ret2
  | closure _ _, o => eqb o any
  | adhoc n t, adhoc n2 t2 => decide (n = n2) && goes_with t t2
  | adhoc _ _, void => false
  | adhoc _ t, o => goes_with t o
  -- leaves (`Bool`, `F64`, `Str`, `Vec4`, `Mat4`, `Link`):
  -- `x if x == other => true`, `_ if *other == Type::Any => true`, else false
  | s, o => eqb s o || eqb o any
termination_by s o => 3 * (sizeOf s + sizeOf o)
decreasing_by
  all_goals simp_wf
  all_goals (repeat' split)
  all_goals omega

/-- The `cl.tys.iter().zip(other_cl.tys.iter()).all(...)` loop of the
`Closure` arm. -/
def goes_with_zip : List Ty → List Ty → Bool
  | a :: as_, b :: bs => goes_with a b && goes_with_zip as_ bs
  | _, _ => true
termination_by as_ bs => 3 * (sizeOf as_ + sizeOf bs)
decreasing_by
  all_goals simp_wf
  all_goals (repeat' split)
  all_goals omega

end

/-- `Type::add_assign` (src/ty.rs): whether `+=`/`-=` is permitted between
two types. -/
def add_assign : Ty → Ty → Bool
  | adhoc n t, adhoc n2 t2 =>
    if n ≠ n2 then false
    else if !goes_with t t2 then false
    else add_assign t t2
  | adhoc _ _, _ => false
  | _, adhoc _ _ => false
  | void, _ => false
  | _, void => false
  | _, _ => true

end Ty

/-- `Runtime::try_msg` (src/runtime/mod.rs): the single-value core of the
postfix `?` operator.  `none` means the variant is not supported and the
caller raises a hard type error. -/
def try_msg : Variable → Option (Except ErrorV Variable)
  | .result r => some r
  | .option o =>
    match o with
    | some s => some (.ok s)
    | none => some (.error (.mk
        (.text "Expected `some(_)`, found `none()`") []))
  | .bool true none => some (.error (.mk
      (.text "This does not make sense, perhaps an array is empty?") []))
  | .bool false _ => some (.error (.mk
      (.text "Must be `true` to have meaning, try add or remove `!`") []))
  -- The source's third `Bool` arm matches `Bool(true, ref sec)` and matches
  -- on `sec` again; its `None` sub-case is dead code because the
  -- `Bool(true, None)` arm above fires first, so only `Some` remains here.
  | .bool true (some s) => some (.ok (.bool true (some s)))
  | .f64 val sec =>
    if val.isNan then
      some (.error (.mk (.text "Expected number, found `NaN`") []))
    else if sec.isNone then
      some (.error (.mk
        (.text "This does not make sense, perhaps an array is empty?") []))
    else some (.ok (.f64 val sec))
  | _ => none

/-- Discriminator: is this one of the four variants `try_msg` supports? -/
def Variable.tryable : Variable → Bool
  | .result _ => true
  | .option _ => true
  | .bool _ _ => true
  | .f64 _ _ => true
  | _ => false

/-- Is the outcome an `Err`? -/
def isErrOutcome : Option (Except ErrorV Variable) → Bool
  | some (.error _) => true
  | _ => false

/-- A call frame `Call` (spec §3.5): snapshot of stack/local/current sizes
at entry plus identification of the callee. -/
structure CallF where
  fn_name : String
  index : Nat
  file : Option String
  stack_len : Nat
  local_len : Nat
  current_len : Nat

/-- The `Flow` control token returned beside every expression value. -/
inductive Flow where
  | continue_ : Flow
  | return_ : Flow
  | break_ (label : Option String) : Flow
  | continueLoop (label : Option String) : Flow
  deriving DecidableEq, Repr

/-- The mutable interpreter state that `try_expr` snapshots and truncates:
`Runtime { stack, call_stack, local_stack, current_stack, .. }`. -/
structure Rt where
  call_stack : List CallF
  stack : List Variable
  local_stack : List (String × Nat)
  current_stack : List (String × Nat)

/-- The result type of `Runtime::expression`:
`Result<(Option<Variable>, Flow), String>`, paired with the runtime state the
evaluation left behind (`&mut self` made explicit). -/
abbrev EvalOut := Rt × Except String (Option Variable × Flow)

/-- `Runtime::try_expr` (src/runtime/mod.rs): snapshot the four stack
lengths, evaluate the inner expression, wrap a produced value in
`Result::Ok`; on an evaluation error truncate all four stacks back to the
snapshot and wrap the message in `Result::Err`.  The inner evaluation is the
explicit state-passing function `inner`.  (In the `Ok((None, Continue))`
arm the source formats `"{stack_trace}\nExpected something"` through
`module.error`; only the core text is modelled.) -/
def try_expr (s : Rt) (inner : Rt → EvalOut) : EvalOut :=
  let cs := s.call_stack.length
  let st := s.stack.length
  let lc := s.local_stack.length
  let cu := s.current_stack.length
  match inner s with
  | (s1, .ok (some x, .continue_)) =>
    (s1, .ok (some (.result (.ok x)), .continue_))
  | (s1, .ok (none, .continue_)) => (s1, .error "Expected something")
  | (s1, .ok (x, flow)) => (s1, .ok (x, flow))
  | (s1, .error err) =>
    ({ call_stack := s1.call_stack.take cs
       stack := s1.stack.take st
       local_stack := s1.local_stack.take lc
       current_stack := s1.current_stack.take cu },
     .ok (some (.result (.error (.mk (.text err) []))), .continue_))

/-- C4.  A try expression records the lengths of `call_stack`, `stack`,
`local_stack` and `current_stack`; if the inner expression produces a value
it returns `Result::Ok` of that value with flow `Continue` (state as the
inner evaluation left it), and if the inner expression fails with an error,
all four stacks are truncated back to the recorded lengths and the result is
`Result::Err` wrapping the error message — in particular, when the inner
evaluation only extended the stacks, the truncation restores exactly the
original interpreter state. -/
theorem C4_try_expr :
    (∀ (s : Rt) (inner : Rt → EvalOut) s1 x,
      inner s = (s1, .ok (some x, .continue_)) →
      try_expr s inner = (s1, .ok (some (.result (.ok x)), .continue_))) ∧
    (∀ (s : Rt) (inner : Rt → EvalOut) s1 e,
      inner s = (s1, .error e) →
      try_expr s inner =
        ({ call_stack := s1.call_stack.take s.call_stack.length
           stack := s1.stack.take s.stack.length
           local_stack := s1.local_stack.take s.local_stack.length
           current_stack := s1.current_stack.take s.current_stack.length },
         .ok (some (.result (.error (.mk (.text e) []))), .continue_))) ∧
    (∀ (s : Rt) (inner : Rt → EvalOut) s1 e c0 t0 l0 u0,
      inner s = (s1, .error e) →
      s1.call_stack = s.call_stack ++ c0 →
      s1.stack = s.stack ++ t0 →
      s1.local_stack = s.local_stack ++ l0 →
      s1.current_stack = s.current_stack ++ u0 →
      (try_expr s inner).1 = s) := by
  refine ⟨fun s inner s1 x h => ?_, fun s inner s1 e h => ?_,
    fun s inner s1 e c0 t0 l0 u0 h hc ht hl hu => ?_⟩
  · simp [try_expr, h]
  · simp [try_expr, h]
  · simp [try_expr, h, hc, ht, hl, hu, List.take_left]

/-- Witness for C4 at a concrete state and concrete inner evaluations (one
success, one error that pushed values that get truncated away). -/
theorem C4_try_expr_witness :
    try_expr ⟨[], [.f64 (.num 1) none], [], []⟩
        (fun s => (s, .ok (some (.text "v"), .continue_))) =
      (⟨[], [.f64 (.num 1) none], [], []⟩,
       .ok (some (.result (.ok (.text "v"))), .continue_)) ∧
    (try_expr ⟨[], [.f64 (.num 1) none], [], []⟩
        (fun s => ({ s with stack := s.stack ++ [.text "junk"] },
          .error "boom"))).1 =
      (⟨[], [.f64 (.num 1) none], [], []⟩ : Rt) :=
  ⟨C4_try_expr.1 _ _ _ _ rfl,
   C4_try_expr.2.2 ⟨[], [.f64 (.num 1) none], [], []⟩ _
     ⟨[], [.f64 (.num 1) none, .text "junk"], [], []⟩ "boom"
     [] [.text "junk"] [] [] rfl rfl rfl rfl rfl⟩

/-- The shared result type of block evaluation inside the `for_n` family. -/
abbrev BlockOut := Except String (Option Variable × Flow)

/-- The `break_!` macro: on `Flow::Break(x)`, keep `Continue` when the label
matches the loop's own label (or there is no label), otherwise propagate
`Break(Some(label))` outward; then exit the loop. -/
def break_flow (forLabel x : Option String) : Flow :=
  match x with
  | some l => if forLabel = some l then .continue_ else .break_ (some l)
  | none => .continue_

/-- The loop of `Runtime::sum_n_expr` (src/runtime/for_n.rs).  The block is
abstracted as a function `body` from the counter value to its evaluation
outcome, and `rv` models `self.resolve` (the one-hop `Ref` peek into the
stack).  `fuel` bounds the number of iterations; `none` means the fuel ran
out, never a result the source could produce. -/
def sum_n_loop (body : Fl → BlockOut) (rv : Variable → Variable)
    (label : Option String) (endv : Fl) :
    Nat → Fl → Fl → Option BlockOut
  | 0, _, _ => none
  | fuel+1, counter, acc =>
    if Fl.lt counter endv then
      match body counter with
      | .ok (some x, .continue_) =>
        match rv x with
        | .f64 val _ =>
          sum_n_loop body rv label endv fuel
            (Fl.add counter (.num 1)) (Fl.add acc val)
        | _ => some (.error "Expected number")
      | .ok (x, .return_) => some (.ok (x, .return_))
      | .ok (none, .continue_) => some (.error "Expected `number`")
      | .ok (_, .break_ x) =>
        some (.ok (some (.f64 acc none), break_flow label x))
      | .ok (_, .continueLoop x) =>
        match x with
        | some l =>
          if label = some l then
            sum_n_loop body rv label endv fuel (Fl.add counter (.num 1)) acc
          else some (.ok (some (.f64 acc none), .continueLoop (some l)))
        | none =>
          sum_n_loop body rv label endv fuel (Fl.add counter (.num 1)) acc
      | .error e => some (.error e)
    else some (.ok (some (.f64 acc none), .continue_))

/-- `Runtime::sum_n_expr` after the `start`/`end` expressions evaluated to
`start`/`endv`: the accumulator is seeded with `0.0` and the counter with
`start`. -/
def sum_n_expr (body : Fl → BlockOut) (rv : Variable → Variable)
    (label : Option String) (start endv : Fl) (fuel : Nat) : Option BlockOut :=
  sum_n_loop body rv label endv fuel start (.num 0)

/-- The loop of `Runtime::prod_n_expr`: as `sum`, but multiplying. -/
def prod_n_loop (body : Fl → BlockOut) (rv : Variable → Variable)
    (label : Option String) (endv : Fl) :
    Nat → Fl → Fl → Option BlockOut
  | 0, _, _ => none
  | fuel+1, counter, acc =>
    if Fl.lt counter endv then
      match body counter with
      | .ok (some x, .continue_) =>
        match rv x with
        | .f64 val _ =>
          prod_n_loop body rv label endv fuel
            (Fl.add counter (.num 1)) (Fl.mul acc val)
        | _ => some (.error "Expected number")
      | .ok (x, .return_) => some (.ok (x, .return_))
      | .ok (none, .continue_) => some (.error "Expected `number`")
      | .ok (_, .break_ x) =>
        some (.ok (some (.f64 acc none), break_flow label x))
      | .ok (_, .continueLoop x) =>
        match x with
        | some l =>
          if label = some l then
            prod_n_loop body rv label endv fuel (Fl.add counter (.num 1)) acc
          else some (.ok (some (.f64 acc none), .continueLoop (some l)))
        | none =>
          prod_n_loop body rv label endv fuel (Fl.add counter (.num 1)) acc
      | .error e => some (.error e)
    else some (.ok (some (.f64 acc none), .continue_))

/-- `Runtime::prod_n_expr`: the accumulator is seeded with `1.0`. -/
def prod_n_expr (body : Fl → BlockOut) (rv : Variable → Variable)
    (label : Option String) (start endv : Fl) (fuel : Nat) : Option BlockOut :=
  prod_n_loop body rv label endv fuel start (.num 1)

/-- One `min`/`max` accumulator update (the body of the
`if min.is_nan() || min > val { .. }` branch, shared by `min_n_expr` and
`max_n_expr`): record the new best and build the secret — the iteration
index appended to the value's own secret, or a fresh one-element secret. -/
def best_sec (valSec : Option (List Variable)) (ind : Fl) :
    Option (List Variable) :=
  match valSec with
  | none => some [Variable.f64c ind]
  | some arr => some (arr ++ [Variable.f64c ind])

/-- The loop of `Runtime::min_n_expr`.  `ind` (the `cond!` macro's returned
counter value) is the current counter. -/
def min_n_loop (body : Fl → BlockOut) (rv : Variable → Variable)
    (label : Option String) (endv : Fl) :
    Nat → Fl → Fl → Option (List Variable) → Option BlockOut
  | 0, _, _, _ => none
  | fuel+1, counter, best, sec =>
    if Fl.lt counter endv then
      match body counter with
      | .ok (some x, .continue_) =>
        match rv x with
        | .f64 val valSec =>
          if best.isNan || Fl.gt best val then
            min_n_loop body rv label endv fuel (Fl.add counter (.num 1))
              val (best_sec valSec counter)
          else
            min_n_loop body rv label endv fuel (Fl.add counter (.num 1))
              best sec
        | _ => some (.error "Expected number")
      | .ok (x, .return_) => some (.ok (x, .return_))
      | .ok (none, .continue_) => some (.error "Expected `number or option`")
      | .ok (_, .break_ x) =>
        some (.ok (some (.f64 best sec), break_flow label x))
      | .ok (_, .continueLoop x) =>
        match x with
        | some l =>
          if label = some l then
            min_n_loop body rv label endv fuel (Fl.add counter (.num 1))
              best sec
          else some (.ok (some (.f64 best sec), .continueLoop (some l)))
        | none =>
          min_n_loop body rv label endv fuel (Fl.add counter (.num 1)) best sec
      | .error e => some (.error e)
    else some (.ok (some (.f64 best sec), .continue_))

/-- `Runtime::min_n_expr`: best seeded with NaN, secret with `None`. -/
def min_n_expr (body : Fl → BlockOut) (rv : Variable → Variable)
    (label : Option String) (start endv : Fl) (fuel : Nat) : Option BlockOut :=
  min_n_loop body rv label endv fuel start .nan none

/-- The loop of `Runtime::max_n_expr`: as `min`, with
`max.is_nan() || max < val`. -/
def max_n_loop (body : Fl → BlockOut) (rv : Variable → Variable)
    (label : Option String) (endv : Fl) :
    Nat → Fl → Fl → Option (List Variable) → Option BlockOut
  | 0, _, _, _ => none
  | fuel+1, counter, best, sec =>
    if Fl.lt counter endv then
      match body counter with
      | .ok (some x, .continue_) =>
        match rv x with
        | .f64 val valSec =>
          if best.isNan || Fl.lt best val then
            max_n_loop body rv label endv fuel (Fl.add counter (.num 1))
              val (best_sec valSec counter)
          else
            max_n_loop body rv label endv fuel (Fl.add counter (.num 1))
              best sec
        | _ => some (.error "Expected number")
      | .ok (x, .return_) => some (.ok (x, .return_))
      | .ok (none, .continue_) => some (.error "Expected `number`")
      | .ok (_, .break_ x) =>
        some (.ok (some (.f64 best sec), break_flow label x))
      | .ok (_, .continueLoop x) =>
        match x with
        | some l =>
          if label = some l then
            max_n_loop body rv label endv fuel (Fl.add counter (.num 1))
              best sec
          else some (.ok (some (.f64 best sec), .continueLoop (some l)))
        | none =>
          max_n_loop body rv label endv fuel (Fl.add counter (.num 1)) best sec
      | .error e => some (.error e)
    else some (.ok (some (.f64 best sec), .continue_))

/-- `Runtime::max_n_expr`: best seeded with NaN, secret with `None`. -/
def max_n_expr (body : Fl → BlockOut) (rv : Variable → Variable)
    (label : Option String) (start endv : Fl) (fuel : Nat) : Option BlockOut :=
  max_n_loop body rv label endv fuel start .nan none

/-- The loop of `Runtime::sift_n_expr`: the block result `x` is pushed into
the result vector as-is (`res.push(x)` — note: without `resolve`). -/
def sift_n_loop (body : Fl → BlockOut) (label : Option String) (endv : Fl) :
    Nat → Fl → List Variable → Option BlockOut
  | 0, _, _ => none
  | fuel+1, counter, res =>
    if Fl.lt counter endv then
      match body counter with
      | .ok (some x, .continue_) =>
        sift_n_loop body label endv fuel (Fl.add counter (.num 1))
          (res ++ [x])
      | .ok (x, .return_) => some (.ok (x, .return_))
      | .ok (none, .continue_) => some (.error "Expected variable")
      | .ok (_, .break_ x) =>
        some (.ok (some (.array res), break_flow label x))
      | .ok (_, .continueLoop x) =>
        match x with
        | some l =>
          if label = some l then
            sift_n_loop body label endv fuel (Fl.add counter (.num 1)) res
          else some (.ok (some (.array res), .continueLoop (some l)))
        | none =>
          sift_n_loop body label endv fuel (Fl.add counter (.num 1)) res
      | .error e => some (.error e)
    else some (.ok (some (.array res), .continue_))

/-- `Runtime::sift_n_expr`: result vector seeded empty. -/
def sift_n_expr (body : Fl → BlockOut) (label : Option String)
    (start endv : Fl) (fuel : Nat) : Option BlockOut :=
  sift_n_loop body label endv fuel start []

/-- C5.  Over an empty range (the `counter < end` guard fails at entry, in
particular whenever `end ≤ start` numerically), `sum` returns its seed
`F64(0, None)`, `prod` returns `F64(1, None)`, and `min`/`max` return their
seed `F64(NaN, None)` — all with flow `Continue`, for any block and any
loop label. -/
theorem C5_empty_range_seeds :
    (∀ (body : Fl → BlockOut) (rv : Variable → Variable)
        (label : Option String) (start endv : Fl) (fuel : Nat),
      Fl.lt start endv = false →
      sum_n_expr body rv label start endv (fuel+1) =
        some (.ok (some (.f64 (.num 0) none), .continue_)) ∧
      prod_n_expr body rv label start endv (fuel+1) =
        some (.ok (some (.f64 (.num 1) none), .continue_)) ∧
      min_n_expr body rv label start endv (fuel+1) =
        some (.ok (some (.f64 .nan none), .continue_)) ∧
      max_n_expr body rv label start endv (fuel+1) =
        some (.ok (some (.f64 .nan none), .continue_))) ∧
    (∀ s e : ℚ, e ≤ s → Fl.lt (.num s) (.num e) = false) := by
  constructor
  · intro body rv label start endv fuel h
    refine ⟨?_, ?_, ?_, ?_⟩ <;>
      simp [sum_n_expr, sum_n_loop, prod_n_expr, prod_n_loop,
        min_n_expr, min_n_loop, max_n_expr, max_n_loop, h]
  · intro s e h
    simp [Fl.lt]
    linarith

/-- Witness for C5 with a concrete block over the empty range `0..0`. -/
theorem C5_empty_range_seeds_witness :
    sum_n_expr (fun i => .ok (some (.f64 i none), .continue_)) id none
        (.num 0) (.num 0) 5 =
      some (.ok (some (.f64 (.num 0) none), .continue_)) ∧
    min_n_expr (fun i => .ok (some (.f64 i none), .continue_)) id none
        (.num 0) (.num 0) 5 =
      some (.ok (some (.f64 .nan none), .continue_)) :=
  ⟨(C5_empty_range_seeds.1 _ id none (.num 0) (.num 0) 4 (by decide)).1,
   (C5_empty_range_seeds.1 _ id none (.num 0) (.num 0) 4 (by decide)).2.2.1⟩

/-- The loop of `Runtime::array` (src/runtime/mod.rs, lines 1286–1302): each
item's evaluation outcome is matched; a produced value is pushed into the
vector **as-is** (no `Ref` resolution), `Flow::Return` propagates, anything
else is an error; `try!` propagates evaluation errors. -/
def array_loop (acc : List Variable) : List BlockOut → BlockOut
  | [] => .ok (some (.array acc), .continue_)
  | ev :: rest =>
    match ev with
    | .ok (some x, .continue_) => array_loop (acc ++ [x]) rest
    | .ok (x, .return_) => .ok (x, .return_)
    | .ok (_, _) => .error "Expected something"
    | .error e => .error e

/-- `Runtime::array`: evaluate the items in order into a fresh vector. -/
def array_expr (items : List BlockOut) : BlockOut :=
  array_loop [] items

/-- The `Item` evaluation for an item with no `ids` and no `?` (src/runtime/
mod.rs, lines 1941–1961): peek one `Ref` hop at the resolved slot, then
return `Ok((Some(Variable::Ref(stack_id)), Flow::Continue))`.  `none` models
the panic of an out-of-bounds index. -/
def item_no_ids (stack : List Variable) (stack_id : Nat) :
    Option (Option Variable × Flow) :=
  match stack.get? stack_id with
  | some (.ref ref_id) => some (some (.ref ref_id), .continue_)
  | some _ => some (some (.ref stack_id), .continue_)
  | none => none

/-- Does the list contain a `Ref` element? -/
def hasRefElem (l : List Variable) : Bool :=
  l.any fun v => match v with | .ref _ => true | _ => false

/-- C3 (counterexample).  "A Ref value never appears inside a container
value; in particular the arrays produced by array literal expressions and by
sift loops contain no Ref elements" is false: evaluating the array literal
`[a]` where `a` is a plain local (an `Item` with no ids) pushes the item's
evaluation result — `Variable::Ref(slot)` — into the array verbatim, so with
stack `[F64(3)]` the literal `[a]` evaluates to `Array([Ref(0)])`, which
contains a `Ref`. -/
theorem C3_ref_in_container_counterexample :
    item_no_ids [.f64 (.num 3) none] 0 = some (some (.ref 0), .continue_) ∧
    array_expr [.ok (some (.ref 0), .continue_)] =
      .ok (some (.array [.ref 0]), .continue_) ∧
    hasRefElem [.ref 0] = true := by
  refine ⟨rfl, rfl, rfl⟩

/-- C3 (amended).  The arrays produced by array literal expressions and by
sift loops contain exactly the raw element/block evaluation results, stored
verbatim: when every outcome is a produced value, the array literal yields
`Array(vs)` for precisely the list `vs` of those values (so it contains a
`Ref` element iff some element evaluated to a `Ref` — the evaluator does not
resolve them; lookups do that later, `item_lookup` following a `Ref` on
non-final hops), and one sift iteration extends the result vector with the
block's value unchanged. -/
theorem C3_containers_store_results_verbatim :
    (∀ vs : List Variable,
      array_expr (vs.map fun v => .ok (some v, .continue_)) =
        .ok (some (.array vs), .continue_)) ∧
    (∀ (body : Fl → BlockOut) label endv fuel counter res x,
      Fl.lt counter endv = true →
      body counter = .ok (some x, .continue_) →
      sift_n_loop body label endv (fuel+1) counter res =
        sift_n_loop body label endv fuel (Fl.add counter (.num 1))
          (res ++ [x])) := by
  constructor
  · have h : ∀ (acc vs : List Variable),
        array_loop acc (vs.map fun v => .ok (some v, .continue_)) =
          .ok (some (.array (acc ++ vs)), .continue_) := by
      intro acc vs
      induction vs generalizing acc with
      | nil => simp [array_loop]
      | cons v rest ih => simp [array_loop, ih]
    intro vs
    simpa using h [] vs
  · intro body label endv fuel counter res x hlt hb
    simp [sift_n_loop, hlt, hb]

/-- Witness for C3's amended theorem at concrete inputs. -/
theorem C3_containers_store_results_verbatim_witness :
    array_expr [.ok (some (.ref 2), .continue_),
        .ok (some (.text "a"), .continue_)] =
      .ok (some (.array [.ref 2, .text "a"]), .continue_) ∧
    sift_n_loop (fun _ => .ok (some (.ref 0), .continue_)) none (.num 1) 2
        (.num 0) [] =
      sift_n_loop (fun _ => .ok (some (.ref 0), .continue_)) none (.num 1) 1
        (Fl.add (.num 0) (.num 1)) [.ref 0] :=
  ⟨C3_containers_store_results_verbatim.1 [.ref 2, .text "a"],
   C3_containers_store_results_verbatim.2
     (fun _ => .ok (some (.ref 0), .continue_)) none (.num 1) 1 (.num 0) []
     (.ref 0) (by decide) rfl⟩

/-- The loop of `Runtime::object` (src/runtime/mod.rs, lines 1262–1284):
evaluate each key's expression; `HashMap::insert` returning a previous value
means the key was already present, which aborts with the duplicate-key
error.  The `HashMap` is modelled as the association list `obj` (insertion
order; `lookup` is key lookup), and `trace` stands for
`self.stack_trace()` in the `format!("{}\nDuplicate key in object `{}`",
trace, key)` message. -/
def object_loop (trace : String) (obj : List (String × Variable)) :
    List (String × BlockOut) → BlockOut
  | [] => .ok (some (.object obj), .continue_)
  | (key, ev) :: rest =>
    match ev with
    | .ok (some x, .continue_) =>
      match obj.lookup key with
      | none => object_loop trace (obj ++ [(key, x)]) rest
      | some _ =>
        .error (trace ++ "\nDuplicate key in object `" ++ key ++ "`")
    | .ok (x, .return_) => .ok (x, .return_)
    | .ok (_, _) => .error (trace ++ "\nExpected something")
    | .error e => .error e

/-- `Runtime::object`: build the map from an empty one. -/
def object_expr (trace : String) (kvs : List (String × BlockOut)) : BlockOut :=
  object_loop trace [] kvs

/-- Discriminator: the outcome is a produced value with flow `Continue`. -/
def okContValue : BlockOut → Bool
  | .ok (some _, .continue_) => true
  | _ => false

theorem lookup_none_not_mem {key : String} :
    ∀ {obj : List (String × Variable)}, obj.lookup key = none →
      key ∉ obj.map Prod.fst := by
  intro obj
  induction obj with
  | nil => intro _ h; simp at h
  | cons p rest ih =>
    obtain ⟨k, v⟩ := p
    intro h hmem
    by_cases hk : key = k
    · subst hk; simp [List.lookup] at h
    · have hbeq : (key == k) = false := by
        simp [hk]
      have h' : rest.lookup key = none := by
        simpa [List.lookup, hbeq] using h
      have hmem' : key ∈ rest.map Prod.fst := by
        simpa [hk] using hmem
      exact ih h' hmem'

theorem object_loop_duplicate (trace : String) :
    ∀ (kvs : List (String × BlockOut)) (obj : List (String × Variable)),
      (∀ kv ∈ kvs, okContValue kv.2 = true) →
      (obj.map Prod.fst).Nodup →
      ¬ ((obj.map Prod.fst) ++ kvs.map Prod.fst).Nodup →
      ∃ key, object_loop trace obj kvs =
        .error (trace ++ "\nDuplicate key in object `" ++ key ++ "`") := by
  intro kvs
  induction kvs with
  | nil =>
    intro obj _ hnd hdup
    exact absurd (by simpa using hnd) hdup
  | cons kv rest ih =>
    intro obj hev hnd hdup
    obtain ⟨key, ev⟩ := kv
    have hkv : okContValue ev = true := hev (key, ev) (by simp)
    obtain ⟨x, hx⟩ : ∃ x, ev = .ok (some x, .continue_) := by
      cases ev with
      | error e => simp [okContValue] at hkv
      | ok p =>
        obtain ⟨ov, fl⟩ := p
        cases ov <;> cases fl <;> simp_all [okContValue]
    subst hx
    cases hlook : obj.lookup key with
    | some v =>
      exact ⟨key, by simp [object_loop, hlook]⟩
    | none =>
      have hmem : key ∉ obj.map Prod.fst := lookup_none_not_mem hlook
      have hnd' : ((obj ++ [(key, x)]).map Prod.fst).Nodup := by
        rw [List.map_append, List.nodup_append]
        refine ⟨hnd, List.nodup_singleton _, ?_⟩
        intro a ha hb
        simp at hb
        subst hb
        exact hmem ha
      have hdup' :
          ¬ (((obj ++ [(key, x)]).map Prod.fst) ++ rest.map Prod.fst).Nodup := by
        intro hcon
        apply hdup
        simpa [List.append_assoc] using hcon
      obtain ⟨k, hk⟩ :=
        ih (obj ++ [(key, x)]) (fun kv h => hev kv (by simp [h])) hnd' hdup'
      exact ⟨k, by simpa [object_loop, hlook] using hk⟩

/-- C10.  Evaluating an object literal whose key-value list contains the
same key twice (all element evaluations succeeding) is a hard runtime error
whose message contains `Duplicate key in object`; the second value never
silently overwrites the first — no `Object` value is returned at all. -/
theorem C10_object_duplicate_key :
    ∀ (trace : String) (kvs : List (String × BlockOut)),
      (∀ kv ∈ kvs, okContValue kv.2 = true) →
      ¬ (kvs.map Prod.fst).Nodup →
      ∃ msg, object_expr trace kvs = .error msg ∧
        ∃ pre post, msg = pre ++ "Duplicate key in object" ++ post := by
  intro trace kvs hev hdup
  obtain ⟨key, hkey⟩ :=
    object_loop_duplicate trace kvs [] hev (by simp) (by simpa using hdup)
  refine ⟨_, hkey, trace ++ "\n", " `" ++ key ++ "`", ?_⟩
  have hsplit : ("\nDuplicate key in object `" : String) =
      "\n" ++ "Duplicate key in object" ++ " `" := rfl
  rw [hsplit]
  simp only [String.append_assoc]

/-- Witness for C10: the literal `{a: 1, a: 2}` errors out. -/
theorem C10_object_duplicate_key_witness :
    ∃ msg,
      object_expr "tr"
        [("a", .ok (some (.f64 (.num 1) none), .continue_)),
         ("a", .ok (some (.f64 (.num 2) none), .continue_))] = .error msg ∧
      ∃ pre post, msg = pre ++ "Duplicate key in object" ++ post :=
  C10_object_duplicate_key "tr"
    [("a", .ok (some (.f64 (.num 1) none), .continue_)),
     ("a", .ok (some (.f64 (.num 2) none), .continue_))]
    (by decide) (by decide)

/-- `ast::CompareOp`. -/
inductive CompareOp where
  | less | lessOrEqual | greater | greaterOrEqual | equal | notEqual
  deriving DecidableEq, Repr

/-- `CompareOp::symbol`. -/
def CompareOp.symbol : CompareOp → String
  | .less => "<"
  | .lessOrEqual => "<="
  | .greater => ">"
  | .greaterOrEqual => ">="
  | .equal => "=="
  | .notEqual => "!="

/-- The `match compare.op` of the `F64` arm of `sub_compare`. -/
def cmpF (op : CompareOp) (a b : Fl) : Bool :=
  match op with
  | .less => Fl.lt a b
  | .lessOrEqual => Fl.le a b
  | .greater => Fl.gt a b
  | .greaterOrEqual => Fl.ge a b
  | .equal => Fl.eqb a b
  | .notEqual => Fl.neb a b

/-- The `match compare.op` of the `Text` arm of `sub_compare`
(lexicographic `Ord` on strings). -/
def cmpS (op : CompareOp) (a b : String) : Bool :=
  match op with
  | .less => decide (a < b)
  | .lessOrEqual => decide (a ≤ b)
  | .greater => decide (b < a)
  | .greaterOrEqual => decide (b ≤ a)
  | .equal => a == b
  | .notEqual => a != b

/-- Modelled from the spec: `typeof_var` returns the canonical type name
string (§4.A); it lives in `lib.rs` outside the excerpted sources and only
feeds the mismatch error message, which no claim inspects. -/
def typeof_var : Variable → String
  | .void => "void"
  | .returnV => "return"
  | .bool _ _ => "bool"
  | .f64 _ _ => "f64"
  | .vec4 _ _ _ _ => "vec4"
  | .mat4 _ => "mat4"
  | .text _ => "str"
  | .array _ => "array"
  | .object _ => "object"
  | .link _ => "link"
  | .option _ => "opt"
  | .result _ => "res"
  | .thread _ => "thr"
  | .inV _ => "in"
  | .closure _ _ => "closure"
  | .rustObject _ => "rustobject"
  | .ref _ => "ref"
  | .unsafeRef _ => "unsaferef"

/-- The `a.iter().all(..)` of the object `Equal` arm: every key of `a` must
be present in `b` with a recursively equal value; errors and non-`true`
results count as `false`.  `cmp` is the recursive `sub_compare` call at the
remaining fuel. -/
def obj_cmp_all (cmp : Variable → Variable → Option (Except String Variable)) :
    List (String × Variable) → List (String × Variable) → Option Bool
  | [], _ => some true
  | (k, v) :: rest, bo =>
    match bo.lookup k with
    | none => some false
    | some bval =>
      match cmp v bval with
      | none => none
      | some (.ok (.bool true _)) => obj_cmp_all cmp rest bo
      | some _ => some false

/-- The `a.iter().any(..)` of the object `NotEqual` arm. -/
def obj_cmp_any (cmp : Variable → Variable → Option (Except String Variable)) :
    List (String × Variable) → List (String × Variable) → Option Bool
  | [], _ => some false
  | (k, v) :: rest, bo =>
    match bo.lookup k with
    | none => some true
    | some bval =>
      match cmp v bval with
      | none => none
      | some (.ok (.bool false _)) => obj_cmp_any cmp rest bo
      | some _ => some true

/-- The `a.iter().zip(b.iter()).all(..)` of the array `Equal` arm. -/
def arr_cmp_all (cmp : Variable → Variable → Option (Except String Variable)) :
    List Variable → List Variable → Option Bool
  | a :: as_, b :: bs =>
    match cmp a b with
    | none => none
    | some (.ok (.bool true _)) => arr_cmp_all cmp as_ bs
    | some _ => some false
  | _, _ => some true

/-- The `a.iter().zip(b.iter()).any(..)` of the array `NotEqual` arm. -/
def arr_cmp_any (cmp : Variable → Variable → Option (Except String Variable)) :
    List Variable → List Variable → Option Bool
  | a :: as_, b :: bs =>
    match cmp a b with
    | none => none
    | some (.ok (.bool false _)) => arr_cmp_any cmp as_ bs
    | some _ => some true
  | _, _ => some false

/-- `sub_compare` (src/runtime/mod.rs, inside `Runtime::compare`).  The
match is on `(rt.resolve(&b), rt.resolve(&a))` — note the order: the
secret of the result comes from `a`, the **left** operand.  `rv` models
`rt.resolve` (the one-hop `Ref` peek), `trace` stands for
`rt.stack_trace()`.  The fuel replaces the source's structural recursion
(which the embedding cannot mirror through `resolve`); `none` means fuel
ran out, never a result the source could produce. -/
def sub_compare (rv : Variable → Variable) (trace : String) (op : CompareOp) :
    Nat → Variable → Variable → Option (Except String Variable)
  | 0, _, _ => none
  | fuel+1, a, b =>
    match rv b, rv a with
    | .f64 bv _, .f64 av sec => some (.ok (.bool (cmpF op av bv) sec))
    | .text bs, .text as_ => some (.ok (.boolc (cmpS op as_ bs)))
    | .bool bb _, .bool ab sec =>
      match op with
      | .equal => some (.ok (.bool (ab == bb) sec))
      | .notEqual => some (.ok (.bool (!(ab == bb)) sec))
      | _ => some (.error (trace ++ "\n`" ++ op.symbol ++
          "` can not be used with bools"))
    | .vec4 b0 b1 b2 b3, .vec4 a0 a1 a2 a3 =>
      match op with
      | .equal => some (.ok (.boolc (Fl.eqb a0 b0 && Fl.eqb a1 b1 &&
          Fl.eqb a2 b2 && Fl.eqb a3 b3)))
      | .notEqual => some (.ok (.boolc (!(Fl.eqb a0 b0 && Fl.eqb a1 b1 &&
          Fl.eqb a2 b2 && Fl.eqb a3 b3))))
      | _ => some (.error (trace ++ "\n`" ++ op.symbol ++
          "` can not be used with vec4s"))
    | .object bo, .object ao =>
      match op with
      | .equal =>
        if ao.length = bo.length then
          match obj_cmp_all (sub_compare rv trace op fuel) ao bo with
          | none => none
          | some r => some (.ok (.boolc r))
        else some (.ok (.boolc false))
      | .notEqual =>
        if ao.length = bo.length then
          match obj_cmp_any (sub_compare rv trace op fuel) ao bo with
          | none => none
          | some r => some (.ok (.boolc r))
        else some (.ok (.boolc true))
      | _ => some (.error (trace ++ "\n`" ++ op.symbol ++
          "` can not be used with objects"))
    | .array bl, .array al =>
      match op with
      | .equal =>
        if al.length = bl.length then
          match arr_cmp_all (sub_compare rv trace op fuel) al bl with
          | none => none
          | some r => some (.ok (.boolc r))
        else some (.ok (.boolc false))
      | .notEqual =>
        if al.length = bl.length then
          match arr_cmp_any (sub_compare rv trace op fuel) al bl with
          | none => none
          | some r => some (.ok (.boolc r))
        else some (.ok (.boolc true))
      | _ => some (.error (trace ++ "\n`" ++ op.symbol ++
          "` can not be used with arrays"))
    | .option none, .option none =>
      match op with
      | .equal => some (.ok (.boolc true))
      | .notEqual => some (.ok (.boolc false))
      | _ => some (.error (trace ++ "\n`" ++ op.symbol ++
          "` can not be used with options"))
    | .option none, .option _ =>
      match op with
      | .equal => some (.ok (.boolc false))
      | .notEqual => some (.ok (.boolc true))
      | _ => some (.error (trace ++ "\n`" ++ op.symbol ++
          "` can not be used with options"))
    | .option _, .option none =>
      match op with
      | .equal => some (.ok (.boolc false))
      | .notEqual => some (.ok (.boolc true))
      | _ => some (.error (trace ++ "\n`" ++ op.symbol ++
          "` can not be used with options"))
    | .option (some bs), .option (some as_) =>
      sub_compare rv trace op fuel as_ bs
    | b, a => some (.error (trace ++ "\n`" ++ op.symbol ++
        "` can not be used with `" ++ typeof_var a ++ "` and `" ++
        typeof_var b ++ "`"))

/-- The `Kind::Compare` rule of the type checker
(src/lifetime/typecheck.rs, lines 482–505): once the left child's type is
known, the compare node's type is `Any` if the left type is `Any`,
`Secret(Bool)` if the left type is `Secret(_)`, else `Bool`.  (The right
operand's type is not consulted.) -/
def compare_ty : Option Ty → Option Ty
  | some .any => some .any
  | some (.secret _) => some (.secret .bool)
  | some _ => some .bool
  | none => none

/-- C6 (counterexample).  The claim that the comparison result "carries a
secret whenever either operand was a secret-carrying f64 compared with a
plain f64" — and that the checker then types the node `Secret(Bool)` — is
false when only the **right** operand carries the secret: comparing plain
`F64(1)` (left) with `F64(2, Some [F64(0)])` (right) under `<` yields
`Bool(true, None)` — no secret — and the checker with left type `F64`
(right `Secret(F64)`) gives plain `Bool`, not `Secret(Bool)`. -/
theorem C6_compare_secret_counterexample :
    sub_compare id "tr" .less 1 (.f64 (.num 1) none)
        (.f64 (.num 2) (some [.f64 (.num 0) none])) =
      some (.ok (.bool true none)) ∧
    compare_ty (some .f64) = some .bool ∧
    (some Ty.bool ≠ some (Ty.secret .bool)) := by
  refine ⟨by simp [sub_compare, cmpF, Fl.lt], rfl, by simp⟩

/-- C6 (amended).  The comparison of two f64 operands returns a `Bool`
carrying exactly the **left** operand's secret (the right operand's secret
is dropped), and correspondingly the checker types a `Compare` node from the
left operand alone: `Secret(Bool)` iff the left type is `Secret(_)`, `Any`
if the left type is `Any`, else `Bool`. -/
theorem C6_compare_secret_left :
    (∀ (rv : Variable → Variable) (trace : String) (op : CompareOp)
        (fuel : Nat) (a : Fl) (asec : Option (List Variable)) (b : Fl)
        (bsec : Option (List Variable)),
      rv (.f64 a asec) = .f64 a asec →
      rv (.f64 b bsec) = .f64 b bsec →
      sub_compare rv trace op (fuel+1) (.f64 a asec) (.f64 b bsec) =
        some (.ok (.bool (cmpF op a b) asec))) ∧
    (∀ t, compare_ty (some (.secret t)) = some (.secret .bool)) ∧
    (∀ t : Ty, t.isSecret = false → t ≠ .any →
      compare_ty (some t) = some .bool) ∧
    compare_ty (some .any) = some .any := by
  refine ⟨fun rv trace op fuel a asec b bsec ha hb => ?_,
    fun t => rfl, fun t hs ha => ?_, rfl⟩
  · simp [sub_compare, ha, hb]
  · cases t <;> simp_all [compare_ty, Ty.isSecret]

/-- Witness for C6: a secret on the left is carried to the result. -/
theorem C6_compare_secret_left_witness :
    sub_compare id "tr" .less 1 (.f64 (.num 1) (some [.f64 (.num 7) none]))
        (.f64 (.num 2) none) =
      some (.ok (.bool (cmpF .less (.num 1) (.num 2))
        (some [.f64 (.num 7) none]))) ∧
    compare_ty (some .f64) = some .bool :=
  ⟨C6_compare_secret_left.1 id "tr" .less 0 (.num 1)
      (some [.f64 (.num 7) none]) (.num 2) none rfl rfl,
   C6_compare_secret_left.2.2.1 .f64 rfl (by simp)⟩

/-- The component formatter standing in for Rust's `{}` `Display` on `f32`:
`NaN` prints as `NaN`, and the numeric payload prints via its decimal/
rational rendering.  (The claims about the writer only concern which
components are printed and the surrounding punctuation, plus concrete small
integers, on which this agrees with Rust.) -/
def fmtF : Fl → String
  | .nan => "NaN"
  | .num q => toString q

/-- The `Variable::Vec4` arm of `write_variable` (src/write.rs, lines
36–48): always write `(v0, v1`; if `v2 != 0.0 || v3 != 0.0` additionally
write `, v2`, and then `, v3)` if `v3 != 0.0`, else `)`. -/
def write_vec4 (v0 v1 v2 v3 : Fl) : String :=
  "(" ++ fmtF v0 ++ ", " ++ fmtF v1 ++
    (if (Fl.neb v2 (.num 0) || Fl.neb v3 (.num 0)) = true then
      ", " ++ fmtF v2 ++
        (if Fl.neb v3 (.num 0) = true then ", " ++ fmtF v3 ++ ")" else ")")
    else ")")

/-- C7 (counterexample).  The claim that a vec4 with only one nonzero
leading component is printed as `(a,)` with a trailing comma is false: the
writer always prints at least the first two components, so `Vec4(1,0,0,0)`
prints as `(1, 0)`, not `(1,)`. -/
theorem C7_write_vec4_counterexample :
    write_vec4 (.num 1) (.num 0) (.num 0) (.num 0) = "(1, 0)" ∧
    "(1, 0)" ≠ "(1,)" := by
  constructor
  · rfl
  · decide

/-- C7 (amended).  The writer prints `Vec4([a,b,0,0])` as `(a, b)`;
`Vec4([a,b,c,0])` with `c ≠ 0` as `(a, b, c)`; `Vec4([a,b,c,d])` with
`d ≠ 0` as `(a, b, c, d)`; the all-zero vec4 as `(0, 0)`; and it always
prints at least two components — there is no one-component `(a,)` form. -/
theorem C7_write_vec4 :
    (∀ a b, write_vec4 a b (.num 0) (.num 0) =
      "(" ++ fmtF a ++ ", " ++ fmtF b ++ ")") ∧
    (∀ a b c, Fl.neb c (.num 0) = true → write_vec4 a b c (.num 0) =
      "(" ++ fmtF a ++ ", " ++ fmtF b ++ ", " ++ fmtF c ++ ")") ∧
    (∀ a b c d, Fl.neb d (.num 0) = true → write_vec4 a b c d =
      "(" ++ fmtF a ++ ", " ++ fmtF b ++ ", " ++ fmtF c ++ ", " ++
        fmtF d ++ ")") ∧
    (write_vec4 (.num 0) (.num 0) (.num 0) (.num 0) = "(0, 0)") := by
  refine ⟨fun a b => ?_, fun a b c h => ?_, fun a b c d h => ?_, rfl⟩
  · simp [write_vec4, Fl.neb, Fl.eqb]
  · have hc : Fl.eqb c (.num 0) = false := by
      cases hcc : Fl.eqb c (.num 0) <;> simp_all [Fl.neb]
    simp [write_vec4, Fl.neb, hc, show Fl.eqb (.num 0) (.num 0) = true from rfl,
      String.append_assoc]
  · have hd : Fl.eqb d (.num 0) = false := by
      cases hdd : Fl.eqb d (.num 0) <;> simp_all [Fl.neb]
    simp [write_vec4, Fl.neb, hd, show Fl.eqb (.num 0) (.num 0) = true from rfl,
      String.append_assoc]

/-- Witness for C7 at concrete components. -/
theorem C7_write_vec4_witness :
    write_vec4 (.num 1) (.num 2) (.num 3) (.num 0) = "(1, 2, 3)" ∧
    write_vec4 (.num 1) (.num 2) (.num 3) (.num 4) = "(1, 2, 3, 4)" := by
  constructor
  · have h := C7_write_vec4.2.1 (Fl.num 1) (Fl.num 2) (Fl.num 3) (by decide)
    rw [h]; rfl
  · have h := C7_write_vec4.2.2.1 (Fl.num 1) (Fl.num 2) (Fl.num 3) (Fl.num 4)
      (by decide)
    rw [h]; rfl

/-- C1.  The postfix `?` core `try_msg` maps: `Result(Ok x) ↦ Ok x` and
`Result(Err e) ↦ Err e`; `Option(Some x) ↦ Ok x` and `Option(None)` to the
`Expected some(_), found none()` error; `Bool(true, None)` and `Bool(false, _)`
to errors; `Bool(true, Some sec) ↦ Ok(Bool(true, Some sec))`; `F64(NaN, _)` to
the `Expected number, found NaN` error even when a secret is present;
`F64(x, None)` to an error; `F64(x, Some sec) ↦ Ok(F64(x, Some sec))` for
non-NaN `x`; and every other variant to `none`, which the caller turns into a
hard type error. -/
theorem C1_try_msg_cases :
    (∀ x, try_msg (.result (.ok x)) = some (.ok x)) ∧
    (∀ e, try_msg (.result (.error e)) = some (.error e)) ∧
    (∀ x, try_msg (.option (some x)) = some (.ok x)) ∧
    (try_msg (.option none) =
      some (.error (.mk (.text "Expected `some(_)`, found `none()`") []))) ∧
    (isErrOutcome (try_msg (.bool true none)) = true) ∧
    (∀ sec, isErrOutcome (try_msg (.bool false sec)) = true) ∧
    (∀ sec, try_msg (.bool true (some sec)) =
      some (.ok (.bool true (some sec)))) ∧
    (∀ sec, try_msg (.f64 .nan sec) =
      some (.error (.mk (.text "Expected number, found `NaN`") []))) ∧
    (∀ q, isErrOutcome (try_msg (.f64 (.num q) none)) = true) ∧
    (∀ q sec, try_msg (.f64 (.num q) (some sec)) =
      some (.ok (.f64 (.num q) (some sec)))) ∧
    (∀ v, v.tryable = false → try_msg v = none) := by
  refine ⟨fun x => rfl, fun e => rfl, fun x => rfl, rfl, rfl,
    fun sec => by cases sec <;> rfl,
    fun sec => rfl,
    fun sec => by cases sec <;> rfl,
    fun q => rfl,
    fun q sec => rfl,
    fun v h => ?_⟩
  cases v <;> simp_all [Variable.tryable, try_msg]


/-- C2 (counterexample).  The claim "`goes_with(Any, τ) = true` iff
`τ ≠ Void`" fails at `τ = AdHoc("T", Void)`: that `τ` is not `Void`, yet the
ad-hoc inversion unwraps it and the check returns `false`. -/
theorem C2_goes_with_any_counterexample :
    Ty.goes_with .any (.adhoc "T" .void) = false ∧
    (Ty.adhoc "T" .void) ≠ .void := by
  constructor
  · simp [Ty.goes_with, Ty.goes_with_main, Ty.isAdHoc, Ty.eqb]
  · exact fun h => Ty.noConfusion h

/-- C2 (amended).  For every type `τ` that is not an ad-hoc wrapper and not a
secret wrapper, `goes_with(Any, τ) = true` iff `τ ≠ Void`; for wrapper types
the check recurses into the wrapped type instead (and can return `false`
even though `τ ≠ Void`, as the counterexample shows). -/
theorem C2_goes_with_any :
    ∀ τ : Ty, τ.isAdHoc = false → τ.isSecret = false →
      (Ty.goes_with .any τ = true ↔ τ ≠ .void) := by
  intro τ h1 h2
  cases τ <;>
    simp_all [Ty.goes_with, Ty.goes_with_main, Ty.eqb, Ty.isAdHoc, Ty.isSecret]

/-- Witness for C2 at `τ = F64` and `τ = Void`. -/
theorem C2_goes_with_any_witness :
    Ty.goes_with .any .f64 = true ∧ ¬ Ty.goes_with .any .void = true :=
  ⟨(C2_goes_with_any .f64 rfl rfl).mpr (by simp),
   fun h => ((C2_goes_with_any .void rfl rfl).mp h) rfl⟩

/-- C8 (counterexample).  The claim "`add_assign(a,b)` returns true except
when either side is `Void` or the two sides are ad-hoc types whose names
disagree" fails at `a = AdHoc("T", F64)`, `b = F64`: neither side is `Void`
and the sides are not two ad-hoc types with disagreeing names, yet
`add_assign` returns `false` (a single ad-hoc side is always rejected). -/
theorem C8_add_assign_counterexample :
    Ty.add_assign (.adhoc "T" .f64) .f64 = false ∧
    (Ty.adhoc "T" .f64) ≠ .void ∧ (Ty.f64 ≠ .void) := by
  refine ⟨rfl, by simp, by simp⟩

/-- C8 (amended).  `add_assign(a,b)` returns true except when either side is
`Void`, when exactly one side is ad-hoc, or when both sides are ad-hoc and
the names disagree or the wrapped types fail `goes_with`/`add_assign`
recursively: for non-ad-hoc `a, b` it is `a ≠ Void ∧ b ≠ Void`; a single
ad-hoc side yields `false`; two ad-hoc sides require equal names plus the
recursive checks. -/
theorem C8_add_assign :
    (∀ a b : Ty, a.isAdHoc = false → b.isAdHoc = false →
      (Ty.add_assign a b = true ↔ (a ≠ .void ∧ b ≠ .void))) ∧
    (∀ a b : Ty, a.isAdHoc ≠ b.isAdHoc → Ty.add_assign a b = false) ∧
    (∀ n t n2 t2, Ty.add_assign (.adhoc n t) (.adhoc n2 t2) =
      (decide (n = n2) && Ty.goes_with t t2 && Ty.add_assign t t2)) := by
  refine ⟨fun a b ha hb => ?_, fun a b h => ?_, fun n t n2 t2 => ?_⟩
  · cases a <;> cases b <;> simp_all [Ty.add_assign, Ty.isAdHoc]
  · cases a <;> cases b <;> simp_all [Ty.add_assign, Ty.isAdHoc]
  · by_cases h : n = n2 <;> simp [Ty.add_assign, h]

/-- Witness for C8: `add_assign(F64, F64)` is permitted, `add_assign(Void,
F64)` is not, and a lone ad-hoc side is rejected. -/
theorem C8_add_assign_witness :
    Ty.add_assign .f64 .f64 = true ∧
    Ty.add_assign .void .f64 = false ∧
    Ty.add_assign .str (.adhoc "T" .str) = false :=
  ⟨(C8_add_assign.1 .f64 .f64 rfl rfl).mpr (by simp),
   by
    have h := C8_add_assign.1 .void .f64 rfl rfl
    cases hv : Ty.add_assign .void .f64
    · rfl
    · exact absurd rfl (h.mp hv).1,
   C8_add_assign.2.1 .str (.adhoc "T" .str) (by decide)⟩

/-- Witness for C1 at concrete inputs: a `Text` value is unsupported, and a
NaN with a secret still errors. -/
theorem C1_try_msg_cases_witness :
    try_msg (.text "abc") = none ∧
    try_msg (.f64 .nan (some [.f64 (.num 1) none])) =
      some (.error (.mk (.text "Expected number, found `NaN`") [])) :=
  ⟨C1_try_msg_cases.2.2.2.2.2.2.2.2.2.2 (.text "abc") rfl,
   C1_try_msg_cases.2.2.2.2.2.2.2.1 (some [.f64 (.num 1) none])⟩

/-! ### The AST and the `number` constant-substitution transform (C9)

The expression tree from `src/ast` as far as `number` (src/ast/replace.rs)
traverses it.  Single-use payload structs (`Link`, `Object`, `Array`, ...)
are flattened into their constructor's fields; shared payload structs
(`Block`, `Item`, `Call`, `ForN`, ...) are separate single-constructor
inductives.  Fields that `number` only ever clones and never inspects
(`BinOp`/`UnOp`/`AssignOp` tags, swizzle components, the payloads of
`Closure`, `Grab` and `In`, resolved-index cells) are opaque tokens. -/

mutual

/-- `ast::Expression`. -/
inductive Expr where
  /-- `Expression::Link(Box<Link>)`. -/
  | link (items : List Expr) (sr : Nat) : Expr
  /-- `Expression::BinOp(Box<BinOpExpression>)`; the operator tag is opaque. -/
  | binop (op : Nat) (left right : Expr) (sr : Nat) : Expr
  /-- `Expression::Item(Box<Item>)`. -/
  | item (it : ItemE) : Expr
  /-- `Expression::Block(Box<Block>)`. -/
  | block (b : Blk) : Expr
  /-- `Expression::Assign(Box<Assign>)`; the `AssignOp` is opaque. -/
  | assign (op : Nat) (left right : Expr) (sr : Nat) : Expr
  /-- `Expression::Object(Box<Object>)`. -/
  | object (key_values : List (String × Expr)) (sr : Nat) : Expr
  /-- `Expression::Call(Box<Call>)`. -/
  | call (c : CallE) : Expr
  /-- `Expression::Array(Box<Array>)`. -/
  | array (items : List Expr) (sr : Nat) : Expr
  /-- `Expression::ArrayFill(Box<ArrayFill>)`. -/
  | arrayFill (fill : Expr) (n : Expr) (sr : Nat) : Expr
  /-- `Expression::Return(Box<Expression>)`. -/
  | ret (e : Expr) : Expr
  /-- `Expression::ReturnVoid(Range)`. -/
  | returnVoid (sr : Nat) : Expr
  /-- `Expression::Break(Break)`. -/
  | breakE (label : Option String) (sr : Nat) : Expr
  /-- `Expression::Continue(Continue)`. -/
  | continueE (label : Option String) (sr : Nat) : Expr
  /-- `Expression::Go(Box<Go>)`. -/
  | go (call : CallE) (sr : Nat) : Expr
  /-- `Expression::Vec4(Box<Vec4>)`. -/
  | vec4 (args : List Expr) (sr : Nat) : Expr
  /-- `Expression::Mat4(Box<Mat4>)`. -/
  | mat4 (args : List Expr) (sr : Nat) : Expr
  /-- `Expression::For(Box<For>)`. -/
  | forE (f : ForE) : Expr
  /-- `Expression::ForN(Box<ForN>)` and its accumulator variants. -/
  | forN (f : ForNE) : Expr
  | sum (f : ForNE) : Expr
  | sumVec4 (f : ForNE) : Expr
  | prod (f : ForNE) : Expr
  | prodVec4 (f : ForNE) : Expr
  | min (f : ForNE) : Expr
  | max (f : ForNE) : Expr
  | sift (f : ForNE) : Expr
  | anyE (f : ForNE) : Expr
  | allE (f : ForNE) : Expr
  | linkFor (f : ForNE) : Expr
  /-- `Expression::ForIn(Box<ForIn>)` and its accumulator variants. -/
  | forIn (f : ForInE) : Expr
  | sumIn (f : ForInE) : Expr
  | prodIn (f : ForInE) : Expr
  | minIn (f : ForInE) : Expr
  | maxIn (f : ForInE) : Expr
  | anyIn (f : ForInE) : Expr
  | allIn (f : ForInE) : Expr
  | siftIn (f : ForInE) : Expr
  | linkIn (f : ForInE) : Expr
  /-- `Expression::If(Box<If>)`. -/
  | ifE (i : IfE) : Expr
  /-- `Expression::Compare(Box<Compare>)`. -/
  | compare (op : CompareOp) (left right : Expr) (sr : Nat) : Expr
  /-- `Expression::Norm(Box<Norm>)`. -/
  | norm (e : Expr) (sr : Nat) : Expr
  /-- `Expression::UnOp(Box<UnOpExpression>)`; the operator tag is opaque. -/
  | unop (op : Nat) (e : Expr) (sr : Nat) : Expr
  /-- `Expression::Variable(Box<(Range, Variable)>)`. -/
  | varE (sr : Nat) (v : Variable) : Expr
  /-- `Expression::Try(Box<Expression>)`. -/
  | tryE (e : Expr) : Expr
  /-- `Expression::Swizzle(Box<Swizzle>)`; the component selectors are
  opaque. -/
  | swizzle (sw0 sw1 : Nat) (sw2 sw3 : Option Nat) (e : Expr) (sr : Nat) : Expr
  /-- `Expression::Closure(Arc<Closure>)`; `number` clones it whole, so the
  payload is an opaque token. -/
  | closure (id : Nat) : Expr
  /-- `Expression::CallClosure(Box<CallClosure>)`. -/
  | callClosure (c : CallClosureE) : Expr
  /-- `Expression::Grab(Box<Grab>)`; cloned whole by `number`, opaque. -/
  | grab (id : Nat) : Expr
  /-- `Expression::TryExpr(Box<TryExpr>)`. -/
  | tryExpr (e : Expr) (sr : Nat) : Expr
  /-- `Expression::In(Box<In>)`; cloned whole by `number`, opaque. -/
  | inE (id : Nat) : Expr

/-- `ast::Item`: name, `current` flag, resolved-slot cells, `?` flag,
property-chain ids and the positions of `?` marks, source range. -/
inductive ItemE where
  | mk (name : String) (current : Bool) (stack_id : Option Nat)
      (static_stack_id : Option Nat) (try_flag : Bool) (ids : List IdE)
      (try_ids : List Nat) (sr : Nat) : ItemE

/-- `ast::Id`. -/
inductive IdE where
  | stringI (sr : Nat) (s : String) : IdE
  | f64I (sr : Nat) (v : Fl) : IdE
  | exprI (e : Expr) : IdE

/-- `ast::Block`. -/
inductive Blk where
  | mk (expressions : List Expr) (sr : Nat) : Blk

/-- `ast::Call`; the resolved `f_index` cell and `custom_source` are opaque
(`number_call` reconstructs the call with `custom_source: None`). -/
inductive CallE where
  | mk (alias_ : Option String) (name : String) (args : List Expr)
      (f_index : Nat) (custom_source : Option Nat) (sr : Nat) : CallE

/-- `ast::CallClosure`. -/
inductive CallClosureE where
  | mk (item : ItemE) (args : List Expr) (sr : Nat) : CallClosureE

/-- `ast::For`. -/
inductive ForE where
  | mk (label : Option String) (init cond step : Expr) (block : Blk)
      (sr : Nat) : ForE

/-- `ast::ForN`. -/
inductive ForNE where
  | mk (label : Option String) (name : String) (start : Option Expr)
      (end_ : Expr) (block : Blk) (sr : Nat) : ForNE

/-- `ast::ForIn`. -/
inductive ForInE where
  | mk (label : Option String) (name : String) (iter : Expr) (block : Blk)
      (sr : Nat) : ForInE

/-- `ast::If`. -/
inductive IfE where
  | mk (cond : Expr) (true_block : Blk) (else_if_conds : List Expr)
      (else_if_blocks : List Blk) (else_block : Option Blk) (sr : Nat) : IfE

end


/-- The item's name field. -/
def ItemE.name : ItemE → String
  | .mk n _ _ _ _ _ _ _ => n

/-- The "declaration of same name" test shared by `number_block` and the
`For` arm of `number`: is this expression an `Assign` whose left side is an
`Item` named `name`?  (`if let Expression::Assign .. if let Expression::Item
.. if &item.name == name` in the source.) -/
def isBindingAssign (name : String) : Expr → Bool
  | .assign _ (.item it) _ _ => it.name == name
  | _ => false

mutual

/-- `number` (src/ast/replace.rs): replace every free occurrence of an item
named `name` by the literal `Variable(F64(val))`, respecting shadowing. -/
def number (name : String) (val : Fl) : Expr → Expr
  | .link items sr => .link (numberList name val items) sr
  | .binop op l r sr =>
    .binop op (number name val l) (number name val r) sr
  | .item it =>
    match it with
    | .mk iname current stack_id static_stack_id try_flag ids try_ids sr =>
      if iname == name then .varE sr (Variable.f64c val)
      else .item (.mk iname current stack_id static_stack_id try_flag
        (numberIds name val ids) try_ids sr)
  | .block b => .block (number_block name val b)
  | .assign op l r sr =>
    .assign op (number name val l) (number name val r) sr
  | .object kvs sr => .object (numberKvs name val kvs) sr
  | .call c => .call (number_call name val c)
  | .array items sr => .array (numberList name val items) sr
  | .arrayFill f n sr => .arrayFill (number name val f) (number name val n) sr
  | .ret e => .ret (number name val e)
  | .returnVoid sr => .returnVoid sr
  | .breakE l sr => .breakE l sr
  | .continueE l sr => .continueE l sr
  | .go c sr => .go (number_call name val c) sr
  | .vec4 args sr => .vec4 (numberList name val args) sr
  | .mat4 args sr => .mat4 (numberList name val args) sr
  | .forE f =>
    -- The `E::For` arm: when the init is a declaration of the same name,
    -- substitute only inside the init's right-hand side and clone the
    -- rest; otherwise descend into all four parts.
    match f with
    | .mk label init cond step blk sr =>
      if isBindingAssign name init then
        .forE (.mk label (substBindingAssign name val init) cond step blk sr)
      else
        .forE (.mk label (number name val init) (number name val cond)
          (number name val step) (number_block name val blk) sr)
  | .forN f => .forN (number_for_n name val f)
  | .sum f => .sum (number_for_n name val f)
  | .sumVec4 f => .sumVec4 (number_for_n name val f)
  | .prod f => .prod (number_for_n name val f)
  | .prodVec4 f => .prodVec4 (number_for_n name val f)
  | .min f => .min (number_for_n name val f)
  | .max f => .max (number_for_n name val f)
  | .sift f => .sift (number_for_n name val f)
  | .anyE f => .anyE (number_for_n name val f)
  | .allE f => .allE (number_for_n name val f)
  | .linkFor f => .linkFor (number_for_n name val f)
  | .forIn f => .forIn (number_for_in name val f)
  | .sumIn f => .sumIn (number_for_in name val f)
  | .prodIn f => .prodIn (number_for_in name val f)
  | .minIn f => .minIn (number_for_in name val f)
  | .maxIn f => .maxIn (number_for_in name val f)
  | .anyIn f => .anyIn (number_for_in name val f)
  | .allIn f => .allIn (number_for_in name val f)
  | .siftIn f => .siftIn (number_for_in name val f)
  | .linkIn f => .linkIn (number_for_in name val f)
  | .ifE i =>
    match i with
    | .mk cond tb econds eblocks eb sr =>
      .ifE (.mk (number name val cond) (number_block name val tb)
        (numberList name val econds) (numberBlks name val eblocks)
        (numberOptBlk name val eb) sr)
  | .compare op l r sr =>
    .compare op (number name val l) (number name val r) sr
  | .norm e sr => .norm (number name val e) sr
  | .unop op e sr => .unop op (number name val e) sr
  | .varE sr v => .varE sr v
  | .tryE e => .tryE (number name val e)
  | .swizzle s0 s1 s2 s3 e sr => .swizzle s0 s1 s2 s3 (number name val e) sr
  | .closure id => .closure id
  | .callClosure c => .callClosure (number_call_closure name val c)
  | .grab id => .grab id
  | .tryExpr e sr => .tryExpr (number name val e) sr
  | .inE id => .inE id

/-- The rebuild performed when a binding assignment for `name` is found:
keep the operator and left side, substitute only inside the right-hand
side.  (Only ever applied to `Assign` expressions.) -/
def substBindingAssign (name : String) (val : Fl) : Expr → Expr
  | .assign op left right sr =>
    .assign op left (number name val right) sr
  | e => e

/-- Pointwise `number` over expression lists (link/array/vec4/mat4 items,
call arguments, else-if conditions). -/
def numberList (name : String) (val : Fl) : List Expr → List Expr
  | [] => []
  | e :: rest => number name val e :: numberList name val rest

/-- Pointwise `number` over object key-values (keys cloned). -/
def numberKvs (name : String) (val : Fl) :
    List (String × Expr) → List (String × Expr)
  | [] => []
  | (k, v) :: rest => (k, number name val v) :: numberKvs name val rest

/-- Pointwise `number` over item ids: only `Id::Expression` is descended
into, the other ids are cloned. -/
def numberIds (name : String) (val : Fl) : List IdE → List IdE
  | [] => []
  | .exprI e :: rest => .exprI (number name val e) :: numberIds name val rest
  | id :: rest => id :: numberIds name val rest

/-- `number_block`. -/
def number_block (name : String) (val : Fl) : Blk → Blk
  | .mk exprs sr => .mk (numberBlockList name val exprs) sr

/-- The statement loop of `number_block`: as soon as a declaration of
`name` is encountered, its right-hand side is substituted, and every
following statement is cloned unchanged (the `just_clone` flag). -/
def numberBlockList (name : String) (val : Fl) : List Expr → List Expr
  | [] => []
  | e :: rest =>
    if isBindingAssign name e then substBindingAssign name val e :: rest
    else number name val e :: numberBlockList name val rest

/-- `number_call`: arguments substituted, `custom_source` reset to `None`. -/
def number_call (name : String) (val : Fl) : CallE → CallE
  | .mk alias_ cname args f_index _custom sr =>
    .mk alias_ cname (numberList name val args) f_index none sr

/-- `number_call_closure`: the item is cloned, the arguments substituted. -/
def number_call_closure (name : String) (val : Fl) :
    CallClosureE → CallClosureE
  | .mk item args sr => .mk item (numberList name val args) sr

/-- `number_for_n`: a loop whose counter is `name` shadows it — the whole
loop (including `start`/`end`) is cloned; otherwise descend. -/
def number_for_n (name : String) (val : Fl) : ForNE → ForNE
  | .mk label fname start end_ blk sr =>
    if fname == name then .mk label fname start end_ blk sr
    else .mk label fname (numberOptE name val start) (number name val end_)
      (number_block name val blk) sr

/-- The `ForIn` arms of `number`: iterator and block are always descended
into (the source performs no name check here). -/
def number_for_in (name : String) (val : Fl) : ForInE → ForInE
  | .mk label fname iter blk sr =>
    .mk label fname (number name val iter) (number_block name val blk) sr

/-- `number` over an optional expression (`ForN.start`). -/
def numberOptE (name : String) (val : Fl) : Option Expr → Option Expr
  | none => none
  | some e => some (number name val e)

/-- `number_block` over the else-if blocks. -/
def numberBlks (name : String) (val : Fl) : List Blk → List Blk
  | [] => []
  | b :: rest => number_block name val b :: numberBlks name val rest

/-- `number_block` over the optional else block. -/
def numberOptBlk (name : String) (val : Fl) : Option Blk → Option Blk
  | none => none
  | some b => some (number_block name val b)

end


/-- Is this expression an `Item` named `n`? -/
def isItemNamed (n : String) : Expr → Bool
  | .item it => it.name == n
  | _ => false

/-- Is this expression an `Assign`? -/
def isAssign : Expr → Bool
  | .assign _ _ _ _ => true
  | _ => false

theorem isBindingAssign_assign (n : String) (op : Nat) (l r : Expr)
    (sr : Nat) :
    isBindingAssign n (.assign op l r sr) = isItemNamed n l := by
  cases l <;> rfl

theorem isBindingAssign_shape {n : String} {e : Expr}
    (h : isBindingAssign n e = true) :
    ∃ op l r sr, e = .assign op l r sr := by
  cases e <;> first | exact ⟨_, _, _, _, rfl⟩ | simp [isBindingAssign] at h

theorem isItemNamed_number (n : String) (v : Fl) (e : Expr)
    (h : isItemNamed n e = false) :
    isItemNamed n (number n v e) = false := by
  cases e
  case item it =>
    rcases it with ⟨iname, cur, sid, ssid, tf, ids, tids, isr⟩
    simp only [isItemNamed, ItemE.name] at h
    have h2 : ¬(iname = n) := by simpa using h
    simp [number, isItemNamed, ItemE.name, h, h2]
  case forE f =>
    rcases f with ⟨label, init, cond, step, blk, fsr⟩
    by_cases hb : isBindingAssign n init = true <;>
      simp [number, isItemNamed, hb]
  case ifE i =>
    rcases i with ⟨cond, tb, ecs, ebs, eb, isr⟩
    simp [number, isItemNamed]
  all_goals simp [number, isItemNamed]

theorem isAssign_number (n : String) (v : Fl) (e : Expr) :
    isAssign (number n v e) = isAssign e := by
  cases e
  case item it =>
    rcases it with ⟨iname, cur, sid, ssid, tf, ids, tids, isr⟩
    by_cases hn : iname = n <;> simp [number, isAssign, hn]
  case forE f =>
    rcases f with ⟨label, init, cond, step, blk, fsr⟩
    by_cases hb : isBindingAssign n init = true <;>
      simp [number, isAssign, hb]
  case ifE i =>
    rcases i with ⟨cond, tb, ecs, ebs, eb, isr⟩
    simp [number, isAssign]
  all_goals simp [number, isAssign]

theorem isBindingAssign_of_not_assign (n : String) (e : Expr)
    (h : isAssign e = false) : isBindingAssign n e = false := by
  cases e <;> simp_all [isAssign, isBindingAssign]

/-- `number` never turns a non-binding statement into a binding one: the
shut-off test of `number_block` gives the same answer after one
substitution pass. -/
theorem isBindingAssign_number (n : String) (v : Fl) (e : Expr)
    (h : isBindingAssign n e = false) :
    isBindingAssign n (number n v e) = false := by
  cases he : isAssign e with
  | true =>
    obtain ⟨op, l, r, sr, rfl⟩ : ∃ op l r sr, e = .assign op l r sr := by
      cases e <;> first | exact ⟨_, _, _, _, rfl⟩ | simp [isAssign] at he
    rw [isBindingAssign_assign] at h
    simp only [number]
    rw [isBindingAssign_assign]
    exact isItemNamed_number n v l h
  | false =>
    apply isBindingAssign_of_not_assign
    rw [isAssign_number]
    exact he

/-- Substituting inside a binding assignment does not change whether it is
one. -/
theorem isBindingAssign_subst (n : String) (v : Fl) (e : Expr) :
    isBindingAssign n (substBindingAssign n v e) = isBindingAssign n e := by
  cases e <;> simp [substBindingAssign, isBindingAssign_assign]


mutual

theorem number_idem (n : String) (k1 k2 : Fl) :
    ∀ e : Expr, number n k2 (number n k1 e) = number n k1 e
  | .link items sr => by
    simp [number, numberList_idem n k1 k2 items]
  | .binop op l r sr => by
    simp [number, number_idem n k1 k2 l, number_idem n k1 k2 r]
  | .item it => by
    rcases it with ⟨iname, cur, sid, ssid, tf, ids, tids, isr⟩
    by_cases hn : iname = n
    · simp [number, hn]
    · simp [number, hn, numberIds_idem n k1 k2 ids]
  | .block b => by
    simp [number, number_block_idem n k1 k2 b]
  | .assign op l r sr => by
    simp [number, number_idem n k1 k2 l, number_idem n k1 k2 r]
  | .object kvs sr => by
    simp [number, numberKvs_idem n k1 k2 kvs]
  | .call c => by
    simp [number, number_call_idem n k1 k2 c]
  | .array items sr => by
    simp [number, numberList_idem n k1 k2 items]
  | .arrayFill f m sr => by
    simp [number, number_idem n k1 k2 f, number_idem n k1 k2 m]
  | .ret e => by
    simp [number, number_idem n k1 k2 e]
  | .returnVoid sr => by simp [number]
  | .breakE l sr => by simp [number]
  | .continueE l sr => by simp [number]
  | .go c sr => by
    simp [number, number_call_idem n k1 k2 c]
  | .vec4 args sr => by
    simp [number, numberList_idem n k1 k2 args]
  | .mat4 args sr => by
    simp [number, numberList_idem n k1 k2 args]
  | .forE f => by
    rcases f with ⟨label, init, cond, step, blk, fsr⟩
    by_cases hb : isBindingAssign n init = true
    · obtain ⟨op, l, r, asr, rfl⟩ := isBindingAssign_shape hb
      have hb2 : isBindingAssign n (.assign op l (number n k1 r) asr) = true := by
        rw [isBindingAssign_assign]
        rw [isBindingAssign_assign] at hb
        exact hb
      simp [number, hb, hb2, substBindingAssign, number_idem n k1 k2 r]
    · have hbf : isBindingAssign n init = false := by simpa using hb
      have hb2 : isBindingAssign n (number n k1 init) = false :=
        isBindingAssign_number n k1 init hbf
      simp [number, hbf, hb2, number_idem n k1 k2 init,
        number_idem n k1 k2 cond, number_idem n k1 k2 step,
        number_block_idem n k1 k2 blk]
  | .forN f => by simp [number, number_for_n_idem n k1 k2 f]
  | .sum f => by simp [number, number_for_n_idem n k1 k2 f]
  | .sumVec4 f => by simp [number, number_for_n_idem n k1 k2 f]
  | .prod f => by simp [number, number_for_n_idem n k1 k2 f]
  | .prodVec4 f => by simp [number, number_for_n_idem n k1 k2 f]
  | .min f => by simp [number, number_for_n_idem n k1 k2 f]
  | .max f => by simp [number, number_for_n_idem n k1 k2 f]
  | .sift f => by simp [number, number_for_n_idem n k1 k2 f]
  | .anyE f => by simp [number, number_for_n_idem n k1 k2 f]
  | .allE f => by simp [number, number_for_n_idem n k1 k2 f]
  | .linkFor f => by simp [number, number_for_n_idem n k1 k2 f]
  | .forIn f => by simp [number, number_for_in_idem n k1 k2 f]
  | .sumIn f => by simp [number, number_for_in_idem n k1 k2 f]
  | .prodIn f => by simp [number, number_for_in_idem n k1 k2 f]
  | .minIn f => by simp [number, number_for_in_idem n k1 k2 f]
  | .maxIn f => by simp [number, number_for_in_idem n k1 k2 f]
  | .anyIn f => by simp [number, number_for_in_idem n k1 k2 f]
  | .allIn f => by simp [number, number_for_in_idem n k1 k2 f]
  | .siftIn f => by simp [number, number_for_in_idem n k1 k2 f]
  | .linkIn f => by simp [number, number_for_in_idem n k1 k2 f]
  | .ifE i => by
    rcases i with ⟨cond, tb, ecs, ebs, eb, isr⟩
    simp [number, number_idem n k1 k2 cond, number_block_idem n k1 k2 tb,
      numberList_idem n k1 k2 ecs, numberBlks_idem n k1 k2 ebs,
      numberOptBlk_idem n k1 k2 eb]
  | .compare op l r sr => by
    simp [number, number_idem n k1 k2 l, number_idem n k1 k2 r]
  | .norm e sr => by simp [number, number_idem n k1 k2 e]
  | .unop op e sr => by simp [number, number_idem n k1 k2 e]
  | .varE sr v => by simp [number]
  | .tryE e => by simp [number, number_idem n k1 k2 e]
  | .swizzle s0 s1 s2 s3 e sr => by simp [number, number_idem n k1 k2 e]
  | .closure id => by simp [number]
  | .callClosure c => by
    simp [number, number_call_closure_idem n k1 k2 c]
  | .grab id => by simp [number]
  | .tryExpr e sr => by simp [number, number_idem n k1 k2 e]
  | .inE id => by simp [number]

theorem numberList_idem (n : String) (k1 k2 : Fl) :
    ∀ es : List Expr,
      numberList n k2 (numberList n k1 es) = numberList n k1 es
  | [] => by simp [numberList]
  | e :: rest => by
    simp [numberList, number_idem n k1 k2 e, numberList_idem n k1 k2 rest]

theorem numberKvs_idem (n : String) (k1 k2 : Fl) :
    ∀ kvs : List (String × Expr),
      numberKvs n k2 (numberKvs n k1 kvs) = numberKvs n k1 kvs
  | [] => by simp [numberKvs]
  | (k, v) :: rest => by
    simp [numberKvs, number_idem n k1 k2 v, numberKvs_idem n k1 k2 rest]

theorem numberIds_idem (n : String) (k1 k2 : Fl) :
    ∀ ids : List IdE, numberIds n k2 (numberIds n k1 ids) = numberIds n k1 ids
  | [] => by simp [numberIds]
  | .exprI e :: rest => by
    simp [numberIds, number_idem n k1 k2 e, numberIds_idem n k1 k2 rest]
  | .stringI sr str :: rest => by
    simp [numberIds, numberIds_idem n k1 k2 rest]
  | .f64I sr v :: rest => by
    simp [numberIds, numberIds_idem n k1 k2 rest]

theorem number_block_idem (n : String) (k1 k2 : Fl) :
    ∀ b : Blk, number_block n k2 (number_block n k1 b) = number_block n k1 b
  | .mk exprs sr => by
    simp [number_block, numberBlockList_idem n k1 k2 exprs]

theorem numberBlockList_idem (n : String) (k1 k2 : Fl) :
    ∀ es : List Expr,
      numberBlockList n k2 (numberBlockList n k1 es) = numberBlockList n k1 es
  | [] => by simp [numberBlockList]
  | e :: rest => by
    by_cases hb : isBindingAssign n e = true
    · obtain ⟨op, l, r, asr, rfl⟩ := isBindingAssign_shape hb
      have hb2 : isBindingAssign n (.assign op l (number n k1 r) asr) = true := by
        rw [isBindingAssign_assign]
        rw [isBindingAssign_assign] at hb
        exact hb
      simp [numberBlockList, hb, hb2, substBindingAssign,
        number_idem n k1 k2 r]
    · have hbf : isBindingAssign n e = false := by simpa using hb
      have hb2 : isBindingAssign n (number n k1 e) = false :=
        isBindingAssign_number n k1 e hbf
      simp [numberBlockList, hbf, hb2, number_idem n k1 k2 e,
        numberBlockList_idem n k1 k2 rest]

theorem number_call_idem (n : String) (k1 k2 : Fl) :
    ∀ c : CallE, number_call n k2 (number_call n k1 c) = number_call n k1 c
  | .mk alias_ cname args f_index custom sr => by
    simp [number_call, numberList_idem n k1 k2 args]

theorem number_call_closure_idem (n : String) (k1 k2 : Fl) :
    ∀ c : CallClosureE,
      number_call_closure n k2 (number_call_closure n k1 c) =
        number_call_closure n k1 c
  | .mk item args sr => by
    simp [number_call_closure, numberList_idem n k1 k2 args]

theorem number_for_n_idem (n : String) (k1 k2 : Fl) :
    ∀ f : ForNE, number_for_n n k2 (number_for_n n k1 f) = number_for_n n k1 f
  | .mk label fname start end_ blk sr => by
    by_cases hf : fname = n
    · simp [number_for_n, hf]
    · simp [number_for_n, hf, numberOptE_idem n k1 k2 start,
        number_idem n k1 k2 end_, number_block_idem n k1 k2 blk]

theorem number_for_in_idem (n : String) (k1 k2 : Fl) :
    ∀ f : ForInE,
      number_for_in n k2 (number_for_in n k1 f) = number_for_in n k1 f
  | .mk label fname iter blk sr => by
    simp [number_for_in, number_idem n k1 k2 iter,
      number_block_idem n k1 k2 blk]

theorem numberOptE_idem (n : String) (k1 k2 : Fl) :
    ∀ o : Option Expr, numberOptE n k2 (numberOptE n k1 o) = numberOptE n k1 o
  | none => by simp [numberOptE]
  | some e => by simp [numberOptE, number_idem n k1 k2 e]

theorem numberBlks_idem (n : String) (k1 k2 : Fl) :
    ∀ bs : List Blk, numberBlks n k2 (numberBlks n k1 bs) = numberBlks n k1 bs
  | [] => by simp [numberBlks]
  | b :: rest => by
    simp [numberBlks, number_block_idem n k1 k2 b,
      numberBlks_idem n k1 k2 rest]

theorem numberOptBlk_idem (n : String) (k1 k2 : Fl) :
    ∀ o : Option Blk,
      numberOptBlk n k2 (numberOptBlk n k1 o) = numberOptBlk n k1 o
  | none => by simp [numberOptBlk]
  | some b => by simp [numberOptBlk, number_block_idem n k1 k2 b]

end

/-- C9.  The constant-substitution transform is idempotent: for every
expression `e`, item name `n` and constants `k₁`, `k₂`,
`number(number(e, n, k₁), n, k₂) = number(e, n, k₁)` — after the first
substitution no free occurrence of `n` remains, and occurrences shadowed by
a rebinding of `n` are copied unchanged by both passes. -/
theorem C9_number_idempotent :
    ∀ (e : Expr) (n : String) (k1 k2 : Fl),
      number n k2 (number n k1 e) = number n k1 e :=
  fun e n k1 k2 => number_idem n k1 k2 e


end Dynamo
